import Mathlib

/-!
Shallow embedding of the Match & Messaging Integrity Subsystem of the
dating-app backend (`src/main.py`, with record shapes from `src/schemas.py`).

MongoDB collections are modelled as Lean lists in insertion order;
`insert_one` is list append, `find_one(filter)` is `List.find?`,
`find(filter)` is `List.filter`, and `.sort(key, dir)` is a stable
`List.mergeSort` on the key.  ObjectId values are modelled as `Nat`
(`st.nextId` plays the store's id assignment), and `datetime.utcnow()` is
the ambient clock field `st.now` (a `Nat` timestamp).  FastAPI's
`HTTPException` is an `Except` error; every handler returns its result
together with the database state after the request, so that a handler
that raises before writing leaves the state unchanged, exactly as the
source does.
-/

namespace Dating

/-- A document of the `user` collection (`schemas.py`, class `User`,
plus the `_id` assigned by the store). -/
structure UserRec where
  id : Nat
  email : String
  password_hash : String
  full_name : Option String := none
  photos : List String := []
  bio : Option String := none
  gender : Option String := none
  show_me : Option String := none
  age_range : List Int := [18, 35]
  distance_km : Int := 50
  interests : List String := []
  verified : Bool := false
  created_at : Nat := 0
  updated_at : Nat := 0
deriving DecidableEq, Repr

/-- The public projection of a user (`main.py`, class `UserPublic`). -/
structure UserPublic where
  id : Nat
  email : String
  full_name : Option String := none
  photos : List String := []
  bio : Option String := none
  gender : Option String := none
  show_me : Option String := none
  age_range : List Int := []
  distance_km : Int := 50
  interests : List String := []
  verified : Bool := false
deriving DecidableEq, Repr

/-- A document of the `like` collection (`main.py`, lines 207-212). -/
structure LikeRec where
  liker_id : Nat
  liked_id : Nat
  created_at : Nat
deriving DecidableEq, Repr

/-- A document of the `match` collection (`main.py`, lines 229-234). -/
structure MatchRec where
  id : Nat
  user_a : Nat
  user_b : Nat
  created_at : Nat
deriving DecidableEq, Repr

/-- A document of the `message` collection (`main.py`, lines 273-279). -/
structure MessageRec where
  id : Nat
  match_id : Nat
  sender_id : Nat
  text : String
  created_at : Nat
deriving DecidableEq, Repr

/-- The database state: the four collections in insertion order, the
store's id counter, and the ambient clock. -/
structure DB where
  users : List UserRec := []
  likes : List LikeRec := []
  matchRecs : List MatchRec := []
  messages : List MessageRec := []
  nextId : Nat := 0
  now : Nat := 0
deriving DecidableEq, Repr

/-- Errors raised by the modelled handlers (`HTTPException` status kinds). -/
inductive ApiError where
  | notFound : String → ApiError
  | forbidden : String → ApiError
deriving DecidableEq, Repr

/-- `get_user_by_id` (`main.py`, lines 81-85): `find_one({"_id": ...})`
on the `user` collection. -/
def get_user_by_id (st : DB) (userId : Nat) : Option UserRec :=
  st.users.find? fun u => u.id == userId

/-- `user_entity` (`main.py`, lines 88-101): project a user document to
its public shape. -/
def user_entity (u : UserRec) : UserPublic :=
  { id := u.id
    email := u.email
    full_name := u.full_name
    photos := u.photos
    bio := u.bio
    gender := u.gender
    show_me := u.show_me
    age_range := u.age_range
    distance_km := u.distance_km
    interests := u.interests
    verified := u.verified }

/-- The JSON body returned by the `/like` handler:
`{"ok": True, "match": bool(match_created)}`. -/
structure LikeResponse where
  ok : Bool
  isMatch : Bool
deriving DecidableEq, Repr

/-- The `/like` handler (`main.py`, lines 200-236).  `userId` is
`str(user["_id"])` of the authenticated liker, `targetId` the payload's
`target_user_id`.  Looks up the target (404 if absent), inserts the like,
queries the reverse-direction like, and on a mutual like inserts a match
unless one already exists for the pair in either order; the response's
`match` flag is true only when a new match document was inserted. -/
def like (st : DB) (userId : Nat) (targetId : Nat) :
    Except ApiError LikeResponse × DB :=
  match get_user_by_id st targetId with
  | none => (.error (.notFound "User not found"), st)
  | some _ =>
    let like_doc : LikeRec :=
      { liker_id := userId, liked_id := targetId, created_at := st.now }
    let st1 : DB := { st with likes := st.likes ++ [like_doc] }
    match st1.likes.find? fun l => l.liker_id == targetId && l.liked_id == userId with
    | none => (.ok { ok := true, isMatch := false }, st1)
    | some _ =>
      match st1.matchRecs.find? fun m =>
          (m.user_a == userId && m.user_b == targetId) ||
          (m.user_a == targetId && m.user_b == userId) with
      | some _ => (.ok { ok := true, isMatch := false }, st1)
      | none =>
        let match_doc : MatchRec :=
          { id := st1.nextId, user_a := userId, user_b := targetId,
            created_at := st1.now }
        (.ok { ok := true, isMatch := true },
         { st1 with matchRecs := st1.matchRecs ++ [match_doc],
                    nextId := st1.nextId + 1 })

/-- One item of the `/matches` response (`main.py`, lines 251-255). -/
structure MatchEntry where
  id : Nat
  other : Option UserPublic
  created_at : Nat
deriving DecidableEq, Repr

/-- The comparison `.sort("created_at", -1)` (descending). -/
def descByCreated (a b : MatchRec) : Bool :=
  decide (b.created_at ≤ a.created_at)

/-- The `/matches` handler (`main.py`, lines 239-256; the route function
is named `matches`, a reserved word here): all matches having the user as
`user_a` or `user_b`, sorted by `created_at` descending, each with the
counterpart resolved through the identity store (`None` when the
counterpart no longer resolves). -/
def listMatches (st : DB) (userId : Nat) : List MatchEntry :=
  let cur := (st.matchRecs.filter fun m =>
    m.user_a == userId || m.user_b == userId).mergeSort descByCreated
  cur.map fun m =>
    let other_id := if m.user_a == userId then m.user_b else m.user_a
    { id := m.id
      other := (get_user_by_id st other_id).map user_entity
      created_at := m.created_at }

/-- The `/messages` POST handler (`main.py`, lines 264-280): resolve the
match (404 if absent), reject a caller who is neither participant (403),
otherwise insert the message with the current timestamp. -/
def send_message (st : DB) (userId : Nat) (matchId : Nat) (text : String) :
    Except ApiError Bool × DB :=
  match st.matchRecs.find? fun m => m.id == matchId with
  | none => (.error (.notFound "Match not found"), st)
  | some mtch =>
    if userId == mtch.user_a || userId == mtch.user_b then
      let msg : MessageRec :=
        { id := st.nextId, match_id := matchId, sender_id := userId,
          text := text, created_at := st.now }
      (.ok true, { st with messages := st.messages ++ [msg],
                           nextId := st.nextId + 1 })
    else
      (.error (.forbidden "Not part of this match"), st)

/-- One item of the `/messages/{match_id}` response
(`main.py`, lines 293-301). -/
structure MessageOut where
  id : Nat
  sender_id : Nat
  text : String
  created_at : Nat
deriving DecidableEq, Repr

/-- The comparison `.sort("created_at", 1)` (ascending). -/
def ascByCreated (a b : MessageRec) : Bool :=
  decide (a.created_at ≤ b.created_at)

/-- Projection of a stored message to a response item. -/
def message_item (m : MessageRec) : MessageOut :=
  { id := m.id, sender_id := m.sender_id, text := m.text,
    created_at := m.created_at }

/-- The `/messages/{match_id}` GET handler (`main.py`, lines 283-302):
resolve the match (404 if absent), reject a non-participant (403),
otherwise return the messages of that match sorted by `created_at`
ascending. -/
def get_messages (st : DB) (userId : Nat) (matchId : Nat) :
    Except ApiError (List MessageOut) × DB :=
  match st.matchRecs.find? fun m => m.id == matchId with
  | none => (.error (.notFound "Match not found"), st)
  | some mtch =>
    if userId == mtch.user_a || userId == mtch.user_b then
      let cur := (st.messages.filter fun m =>
        m.match_id == matchId).mergeSort ascByCreated
      (.ok (cur.map message_item), st)
    else
      (.error (.forbidden "Not part of this match"), st)

/-- The `/me` PUT payload (`main.py`, class `ProfileUpdate`,
lines 161-168): every field optional, `none` meaning "not supplied". -/
structure ProfileUpdate where
  photos : Option (List String) := none
  bio : Option String := none
  gender : Option String := none
  show_me : Option String := none
  age_range : Option (List Int) := none
  distance_km : Option Int := none
  interests : Option (List String) := none
deriving DecidableEq, Repr

/-- The `$set` document of `update_me` applied to a user document: the
non-`none` payload fields plus `updated_at = now`
(`main.py`, lines 178-180). -/
def applySet (p : ProfileUpdate) (now : Nat) (u : UserRec) : UserRec :=
  { u with
    photos := p.photos.getD u.photos
    bio := match p.bio with | some v => some v | none => u.bio
    gender := match p.gender with | some v => some v | none => u.gender
    show_me := match p.show_me with | some v => some v | none => u.show_me
    age_range := p.age_range.getD u.age_range
    distance_km := p.distance_km.getD u.distance_km
    interests := p.interests.getD u.interests
    updated_at := now }

/-- Mongo's `update_one({"_id": id}, ...)`: apply `f` to the first
document whose id matches, leave everything else untouched. -/
def update_one (users : List UserRec) (userId : Nat) (f : UserRec → UserRec) :
    List UserRec :=
  match users with
  | [] => []
  | u :: rest =>
    if u.id == userId then f u :: rest else u :: update_one rest userId f

/-- The `/me` PUT handler (`main.py`, lines 176-182): `$set` the supplied
fields plus `updated_at` on the authenticated user's document, then
re-fetch and return its public shape. -/
def update_me (st : DB) (userId : Nat) (p : ProfileUpdate) :
    Option UserPublic × DB :=
  let st1 : DB := { st with users := update_one st.users userId (applySet p st.now) }
  ((get_user_by_id st1 userId).map user_entity, st1)

/-- The ambient clock advancing between requests: `datetime.utcnow()`
reads `st.now`, which the environment (not the handlers) moves forward. -/
def setNow (st : DB) (t : Nat) : DB :=
  { st with now := t }

/-!
Interleaved execution of the `/like` handler.  Each request is handled as
an independent unit of work; the handler's five store accesses (target
lookup, like insert, reverse-like lookup, match lookup, match insert) are
the atomic steps, exactly the statements of `main.py` lines 202-236, and
two in-flight requests may interleave arbitrarily between them.
-/

/-- An in-flight `/like` request: its liker, its target, its program
counter over the five store accesses, and the `match` flag of its
response once it has finished (pc 5). -/
structure LikeThread where
  uid : Nat
  target : Nat
  pc : Nat := 0
  res : Option Bool := none
deriving DecidableEq, Repr

/-- One atomic store access of an in-flight `/like` request, mirroring
the handler body statement by statement. -/
def likeStep (st : DB) (t : LikeThread) : DB × LikeThread :=
  match t.pc with
  | 0 =>
    match get_user_by_id st t.target with
    | none => (st, { t with pc := 5 })
    | some _ => (st, { t with pc := 1 })
  | 1 =>
    let like_doc : LikeRec :=
      { liker_id := t.uid, liked_id := t.target, created_at := st.now }
    ({ st with likes := st.likes ++ [like_doc] }, { t with pc := 2 })
  | 2 =>
    match st.likes.find? fun l => l.liker_id == t.target && l.liked_id == t.uid with
    | none => (st, { t with pc := 5, res := some false })
    | some _ => (st, { t with pc := 3 })
  | 3 =>
    match st.matchRecs.find? fun m =>
        (m.user_a == t.uid && m.user_b == t.target) ||
        (m.user_a == t.target && m.user_b == t.uid) with
    | some _ => (st, { t with pc := 5, res := some false })
    | none => (st, { t with pc := 4 })
  | 4 =>
    let match_doc : MatchRec :=
      { id := st.nextId, user_a := t.uid, user_b := t.target, created_at := st.now }
    ({ st with matchRecs := st.matchRecs ++ [match_doc], nextId := st.nextId + 1 },
     { t with pc := 5, res := some true })
  | _ => (st, t)

/-- Run two in-flight `/like` requests under a schedule: `true` steps the
first thread, `false` the second. -/
def runSched (st : DB) (t1 t2 : LikeThread) :
    List Bool → DB × LikeThread × LikeThread
  | [] => (st, t1, t2)
  | b :: rest =>
    if b then
      let p := likeStep st t1
      runSched p.1 p.2 t2 rest
    else
      let p := likeStep st t2
      runSched p.1 t1 p.2 rest

/-- The match documents stored for the unordered pair of `x` and `y`. -/
def matchesForPair (st : DB) (x y : Nat) : List MatchRec :=
  st.matchRecs.filter fun m =>
    (m.user_a == x && m.user_b == y) || (m.user_a == y && m.user_b == x)

/-!  Concrete states used as test fixtures. -/

/-- Fixture: user 1. -/
def userA : UserRec := { id := 1, email := "a@x.com", password_hash := "h1" }

/-- Fixture: user 2. -/
def userB : UserRec := { id := 2, email := "b@x.com", password_hash := "h2" }

/-- Fixture: user 3, a stranger to the match of users 1 and 2. -/
def userC : UserRec := { id := 3, email := "c@x.com", password_hash := "h3" }

/-- Fixture: three users, empty ledgers. -/
def st0 : DB := { users := [userA, userB, userC], nextId := 10, now := 100 }

/-- Fixture: users 1 and 2 already matched (match id 7), with the like
from 2 to 1 that produced it still in the ledger. -/
def stMatched : DB :=
  { st0 with likes := [{ liker_id := 2, liked_id := 1, created_at := 50 }],
             matchRecs := [{ id := 7, user_a := 1, user_b := 2, created_at := 60 }] }

/-- The racing schedule: thread 2 runs through its like insert, thread 1
runs through its match-existence check, thread 2 runs its two lookups,
then both threads perform their match inserts. -/
def raceSched : List Bool :=
  [false, false, true, true, true, true, false, false, true, false]

/-- The entry the `/matches` handler builds for one match document:
its id, the counterpart resolved via the identity store (or `none`),
and the match's creation time. -/
def matchEntryOf (st : DB) (userId : Nat) (m : MatchRec) : MatchEntry :=
  { id := m.id
    other := (get_user_by_id st
      (if m.user_a == userId then m.user_b else m.user_a)).map user_entity
    created_at := m.created_at }

/-- Fixture: user 1 is matched (match id 8) with user 99, who has no
document in the identity store. -/
def stGhost : DB :=
  { st0 with matchRecs := [{ id := 8, user_a := 1, user_b := 99, created_at := 60 }] }

/-- A core operation of the subsystem as dispatched by the request
layer: like processing, match listing, message posting, message listing,
profile update — plus the ambient clock advancing between requests. -/
inductive Op where
  | opLike (userId targetId : Nat)
  | opListMatches (userId : Nat)
  | opSendMessage (userId matchId : Nat) (text : String)
  | opGetMessages (userId matchId : Nat)
  | opUpdateMe (userId : Nat) (p : ProfileUpdate)
  | opTick (t : Nat)
deriving DecidableEq

/-- The state after one core operation (read-only operations leave the
state unchanged). -/
def applyOp (st : DB) : Op → DB
  | .opLike u t => (like st u t).2
  | .opListMatches _ => st
  | .opSendMessage u m x => (send_message st u m x).2
  | .opGetMessages u m => (get_messages st u m).2
  | .opUpdateMe u p => (update_me st u p).2
  | .opTick t => setNow st t

/-- The write-time invariant of the Message Log: every stored message
references a stored match of which its sender is a participant. -/
def msgOk (st : DB) : Prop :=
  ∀ msg ∈ st.messages, ∃ m ∈ st.matchRecs,
    m.id = msg.match_id ∧ (msg.sender_id = m.user_a ∨ msg.sender_id = m.user_b)

end Dating

namespace Dating

/-- Success path of the `/like` handler when the reverse like and a match
for the pair already exist: the like is appended, the match store is left
untouched, and the response's `match` flag is `false` (the handler sets
it only when it inserts a new match document). -/
theorem like_eq_of_existing_match (st : DB) (a b : Nat)
    (htarget : (get_user_by_id st b).isSome)
    (hrev : ∃ l ∈ st.likes, l.liker_id = b ∧ l.liked_id = a)
    (hmatch : ∃ m ∈ st.matchRecs,
      (m.user_a = a ∧ m.user_b = b) ∨ (m.user_a = b ∧ m.user_b = a)) :
    like st a b =
      (.ok { ok := true, isMatch := false },
       { st with likes := st.likes ++
          [{ liker_id := a, liked_id := b, created_at := st.now }] }) := by
  obtain ⟨u, hu⟩ := Option.isSome_iff_exists.mp htarget
  have hfind : (List.find? (fun l => l.liker_id == b && l.liked_id == a)
      (st.likes ++ [({ liker_id := a, liked_id := b, created_at := st.now } : LikeRec)])) ≠ none := by
    intro hnone
    rw [List.find?_eq_none] at hnone
    obtain ⟨l, hl, h1, h2⟩ := hrev
    exact hnone l (List.mem_append_left _ hl) (by simp [h1, h2])
  have hfind2 : (List.find? (fun m =>
      (m.user_a == a && m.user_b == b) || (m.user_a == b && m.user_b == a)) st.matchRecs) ≠ none := by
    intro hnone
    rw [List.find?_eq_none] at hnone
    obtain ⟨m, hm, hcase⟩ := hmatch
    refine hnone m hm ?_
    rcases hcase with ⟨h1, h2⟩ | ⟨h1, h2⟩ <;> simp [h1, h2]
  cases hfindEq : (List.find? (fun l => l.liker_id == b && l.liked_id == a)
      (st.likes ++ [({ liker_id := a, liked_id := b, created_at := st.now } : LikeRec)])) with
  | none => exact absurd hfindEq hfind
  | some w =>
    cases hfindEq2 : (List.find? (fun m =>
        (m.user_a == a && m.user_b == b) || (m.user_a == b && m.user_b == a)) st.matchRecs) with
    | none => exact absurd hfindEq2 hfind2
    | some w2 =>
      unfold like
      rw [hu]
      simp [hfindEq, hfindEq2]

/-- Success path of the `/like` handler when no reverse like exists and
the liker differs from the target: the like is appended and nothing else
changes. -/
theorem like_eq_of_no_reverse (st : DB) (a b : Nat) (hne : a ≠ b)
    (htarget : (get_user_by_id st b).isSome)
    (hrev : ∀ l ∈ st.likes, ¬(l.liker_id = b ∧ l.liked_id = a)) :
    like st a b =
      (.ok { ok := true, isMatch := false },
       { st with likes := st.likes ++
          [{ liker_id := a, liked_id := b, created_at := st.now }] }) := by
  obtain ⟨u, hu⟩ := Option.isSome_iff_exists.mp htarget
  have hfind : (List.find? (fun l => l.liker_id == b && l.liked_id == a)
      (st.likes ++ [({ liker_id := a, liked_id := b, created_at := st.now } : LikeRec)]))
      = none := by
    rw [List.find?_eq_none]
    intro l hl
    rcases List.mem_append.mp hl with hmem | hmem
    · have := hrev l hmem
      simp only [Bool.and_eq_true, beq_iff_eq, not_and]
      intro h1 h2
      exact this ⟨h1, h2⟩
    · rcases List.mem_singleton.mp hmem with rfl
      simp only [Bool.and_eq_true, beq_iff_eq, not_and]
      intro h1 _
      exact hne h1
  unfold like
  rw [hu]
  simp [hfind]

/-- C1 counterexample: with users 1 and 2 already matched (match id 7)
and the like from 2 to 1 in the ledger, `processLike(1,2)` returns a
response whose `match` flag is `false` and carries no match payload,
contradicting the claimed `{matched: true, match: <existing>}`; the match
store is left unchanged. -/
theorem C1_counterexample :
    (like stMatched 1 2).1 = Except.ok { ok := true, isMatch := false } ∧
    ((like stMatched 1 2).2).matchRecs = stMatched.matchRecs := by
  exact ⟨rfl, rfl⟩

/-- C1 (amended): for distinct existing users `a` and `b` with a like
from `b` to `a` in the ledger and a Match for the unordered pair already
stored, `processLike(a,b)` creates no additional Match record — it only
appends the like — and returns `matched: false` with no match payload:
the handler's `match` flag reports only whether this call inserted a new
Match, so the idempotent repeat call does not re-report the match. -/
theorem C1_existing_match_no_duplicate (st : DB) (a b : Nat) (hne : a ≠ b)
    (ha : (get_user_by_id st a).isSome) (hb : (get_user_by_id st b).isSome)
    (hrev : ∃ l ∈ st.likes, l.liker_id = b ∧ l.liked_id = a)
    (hmatch : ∃ m ∈ st.matchRecs,
      (m.user_a = a ∧ m.user_b = b) ∨ (m.user_a = b ∧ m.user_b = a)) :
    (like st a b).1 = Except.ok { ok := true, isMatch := false } ∧
    ((like st a b).2).matchRecs = st.matchRecs ∧
    ((like st a b).2).likes = st.likes ++
      [{ liker_id := a, liked_id := b, created_at := st.now }] := by
  rw [like_eq_of_existing_match st a b hb hrev hmatch]
  exact ⟨rfl, rfl, rfl⟩

/-- C1 witness: the amended claim instantiated on the matched fixture. -/
theorem C1_witness :
    (like stMatched 1 2).1 = Except.ok { ok := true, isMatch := false } ∧
    ((like stMatched 1 2).2).matchRecs = stMatched.matchRecs ∧
    ((like stMatched 1 2).2).likes = stMatched.likes ++
      [{ liker_id := 1, liked_id := 2, created_at := 100 }] :=
  C1_existing_match_no_duplicate stMatched 1 2 (by decide) (by decide) (by decide)
    ⟨{ liker_id := 2, liked_id := 1, created_at := 50 }, by decide, by decide, by decide⟩
    ⟨{ id := 7, user_a := 1, user_b := 2, created_at := 60 }, by decide, Or.inl ⟨rfl, rfl⟩⟩

/-- C2: the `/like` handler performs no self-like check.  With existing
user 1 and an otherwise empty store, `processLike(1,1)` inserts the like
`(1,1)`, finds that very like as its own "reverse" like, and inserts the
self-match `(user_a = 1, user_b = 1)`, answering `{ok: true, match: true}`
— instead of failing with `InvalidInput` and storing nothing. -/
theorem C2_self_like_creates_self_match :
    like st0 1 1 =
      (Except.ok { ok := true, isMatch := true },
       { st0 with likes := [{ liker_id := 1, liked_id := 1, created_at := 100 }],
                  matchRecs := [{ id := 10, user_a := 1, user_b := 1, created_at := 100 }],
                  nextId := 11 }) := by
  rfl

/-- C3: the check-then-insert sequence of the `/like` handler is
unguarded, so the two directions of a mutual like can race.  Under the
schedule `raceSched` — both requests pass the match-existence check
before either inserts — the store ends with two Match records for the
unordered pair of users 1 and 2, and both requests report a match. -/
theorem C3_race_creates_duplicate_matches :
    (matchesForPair
      (runSched st0 { uid := 1, target := 2 } { uid := 2, target := 1 } raceSched).1
      1 2).length = 2 ∧
    (runSched st0 { uid := 1, target := 2 } { uid := 2, target := 1 } raceSched).2.1.res
      = some true ∧
    (runSched st0 { uid := 1, target := 2 } { uid := 2, target := 1 } raceSched).2.2.res
      = some true := by
  exact ⟨rfl, rfl, rfl⟩

/-- C5: for distinct existing users `a` and `b` with no like from `b` to
`a` in the ledger, `processLike(a,b)` answers `matched: false`, creates
no Match record, and still records the like itself. -/
theorem C5_no_reverse_like_no_match (st : DB) (a b : Nat) (hne : a ≠ b)
    (ha : (get_user_by_id st a).isSome) (hb : (get_user_by_id st b).isSome)
    (hrev : ∀ l ∈ st.likes, ¬(l.liker_id = b ∧ l.liked_id = a)) :
    (like st a b).1 = Except.ok { ok := true, isMatch := false } ∧
    ((like st a b).2).matchRecs = st.matchRecs ∧
    ((like st a b).2).likes = st.likes ++
      [{ liker_id := a, liked_id := b, created_at := st.now }] := by
  rw [like_eq_of_no_reverse st a b hne hb hrev]
  exact ⟨rfl, rfl, rfl⟩

/-- C5 witness: a lone like from user 1 to user 2 on the empty ledger. -/
theorem C5_witness :
    (like st0 1 2).1 = Except.ok { ok := true, isMatch := false } ∧
    ((like st0 1 2).2).matchRecs = st0.matchRecs ∧
    ((like st0 1 2).2).likes = st0.likes ++
      [{ liker_id := 1, liked_id := 2, created_at := 100 }] :=
  C5_no_reverse_like_no_match st0 1 2 (by decide) (by decide) (by decide)
    (by intro l hl; simp [st0] at hl)

/-- Success path of the `/messages` POST handler: the match resolves and
the sender is one of its participants, so the message is appended with
the current timestamp, whatever the text. -/
theorem send_message_ok (st : DB) (u mid : Nat) (text : String) (mtch : MatchRec)
    (hfind : (st.matchRecs.find? fun m => m.id == mid) = some mtch)
    (hpart : u = mtch.user_a ∨ u = mtch.user_b) :
    send_message st u mid text =
      (.ok true,
       { st with
         messages := st.messages ++
           [{ id := st.nextId, match_id := mid, sender_id := u,
              text := text, created_at := st.now }]
         nextId := st.nextId + 1 }) := by
  have hcond : (u == mtch.user_a || u == mtch.user_b) = true := by
    rcases hpart with h | h <;> simp [h]
  unfold send_message
  rw [hfind]
  simp [hcond]

/-- Success path of the `/messages/{match_id}` GET handler: the match
resolves and the caller participates, so the handler returns the match's
messages sorted ascending by `created_at`, without touching the state. -/
theorem get_messages_ok (st : DB) (u mid : Nat) (mtch : MatchRec)
    (hfind : (st.matchRecs.find? fun m => m.id == mid) = some mtch)
    (hpart : u = mtch.user_a ∨ u = mtch.user_b) :
    get_messages st u mid =
      (.ok (((st.messages.filter fun m => m.match_id == mid).mergeSort
        ascByCreated).map message_item), st) := by
  have hcond : (u == mtch.user_a || u == mtch.user_b) = true := by
    rcases hpart with h | h <;> simp [h]
  unfold get_messages
  rw [hfind]
  simp [hcond]

/-- C4: the Conversation Guard.  When the match id does not resolve, both
message operations fail with `NotFound`; when it resolves but the acting
user is neither `user_a` nor `user_b`, both fail with `Forbidden` — and
in each failing case the returned state is the input state, so no message
is stored, and the error carries no message contents. -/
theorem C4_conversation_guard (st : DB) (u mid : Nat) (text : String) :
    ((st.matchRecs.find? fun m => m.id == mid) = none →
      send_message st u mid text = (.error (.notFound "Match not found"), st) ∧
      get_messages st u mid = (.error (.notFound "Match not found"), st)) ∧
    (∀ mtch, (st.matchRecs.find? fun m => m.id == mid) = some mtch →
      u ≠ mtch.user_a → u ≠ mtch.user_b →
      send_message st u mid text = (.error (.forbidden "Not part of this match"), st) ∧
      get_messages st u mid = (.error (.forbidden "Not part of this match"), st)) := by
  constructor
  · intro hnone
    constructor
    · unfold send_message
      rw [hnone]
    · unfold get_messages
      rw [hnone]
  · intro mtch hsome hna hnb
    have hcond : (u == mtch.user_a || u == mtch.user_b) = false := by
      simp [hna, hnb]
    constructor
    · unfold send_message
      rw [hsome]
      simp [hcond]
    · unfold get_messages
      rw [hsome]
      simp [hcond]

/-- C4 witness: a missing match id yields `NotFound`, and the stranger
user 3 is rejected with `Forbidden` from the match of users 1 and 2. -/
theorem C4_witness :
    (send_message st0 1 99 "hi" = (.error (.notFound "Match not found"), st0) ∧
     get_messages st0 1 99 = (.error (.notFound "Match not found"), st0)) ∧
    (send_message stMatched 3 7 "hi"
        = (.error (.forbidden "Not part of this match"), stMatched) ∧
     get_messages stMatched 3 7
        = (.error (.forbidden "Not part of this match"), stMatched)) :=
  ⟨(C4_conversation_guard st0 1 99 "hi").1 rfl,
   (C4_conversation_guard stMatched 3 7 "hi").2
     { id := 7, user_a := 1, user_b := 2, created_at := 60 } rfl
     (by decide) (by decide)⟩

/-- C6 counterexample: user 1, a participant of match 7, posts the empty
text; the handler accepts it (`ok: true`) and stores an empty Message
record, instead of failing with `InvalidInput` and storing nothing. -/
theorem C6_counterexample :
    (send_message stMatched 1 7 "").1 = Except.ok true ∧
    ((send_message stMatched 1 7 "").2).messages = stMatched.messages ++
      [{ id := 10, match_id := 7, sender_id := 1, text := "", created_at := 100 }] := by
  exact ⟨rfl, rfl⟩

/-- C6 (amended): `postMessage` performs no emptiness check on the text.
For every match and participant sender it stores the message with the
current timestamp and succeeds for any text, the empty text included;
with non-empty text it behaves as the claim states, but the empty text
does not fail with `InvalidInput`. -/
theorem C6_post_message_stores_any_text (st : DB) (u mid : Nat) (text : String)
    (mtch : MatchRec)
    (hfind : (st.matchRecs.find? fun m => m.id == mid) = some mtch)
    (hpart : u = mtch.user_a ∨ u = mtch.user_b) :
    send_message st u mid text =
      (.ok true,
       { st with
         messages := st.messages ++
           [{ id := st.nextId, match_id := mid, sender_id := u,
              text := text, created_at := st.now }]
         nextId := st.nextId + 1 }) :=
  send_message_ok st u mid text mtch hfind hpart

/-- C6 witness: participant 1 posts a non-empty text to match 7, which is
stored with the current timestamp. -/
theorem C6_witness :
    send_message stMatched 1 7 "hello" =
      (.ok true,
       { stMatched with
         messages := stMatched.messages ++
           [{ id := 10, match_id := 7, sender_id := 1,
              text := "hello", created_at := 100 }]
         nextId := 11 }) :=
  C6_post_message_stores_any_text stMatched 1 7 "hello"
    { id := 7, user_a := 1, user_b := 2, created_at := 60 } rfl (Or.inl rfl)

/-- The ascending comparison is transitive. -/
theorem ascByCreated_trans : ∀ a b c : MessageRec,
    ascByCreated a b = true → ascByCreated b c = true → ascByCreated a c = true := by
  intro a b c hab hbc
  simp only [ascByCreated, decide_eq_true_eq] at *
  exact le_trans hab hbc

/-- The ascending comparison is total. -/
theorem ascByCreated_total : ∀ a b : MessageRec,
    (ascByCreated a b || ascByCreated b a) = true := by
  intro a b
  simp only [ascByCreated, Bool.or_eq_true, decide_eq_true_eq]
  exact Nat.le_total a.created_at b.created_at

/-- C7: for every stored match `mid` and participant caller `u`,
`listMessages` returns exactly the Message records whose `match_id` is
`mid` (a permutation of the filtered store, so messages of other matches
never appear), sorted by `created_at` ascending; and in particular, when
the match's log is empty, appending three messages at non-decreasing
times `t1 ≤ t2 ≤ t3` yields them back in the same order, carrying those
timestamps. -/
theorem C7_list_messages_filtered_sorted (st : DB) (u mid : Nat) (mtch : MatchRec)
    (t1 t2 t3 : Nat) (x1 x2 x3 : String)
    (hfind : (st.matchRecs.find? fun m => m.id == mid) = some mtch)
    (hpart : u = mtch.user_a ∨ u = mtch.user_b) :
    (∃ out, get_messages st u mid = (.ok out, st) ∧
      out.Perm ((st.messages.filter fun m => m.match_id == mid).map message_item) ∧
      List.Pairwise (fun x y => x.created_at ≤ y.created_at) out) ∧
    ((st.messages.filter fun m => m.match_id == mid) = [] → t1 ≤ t2 → t2 ≤ t3 →
      (get_messages
        (send_message (setNow
          (send_message (setNow
            (send_message (setNow st t1) u mid x1).2 t2) u mid x2).2 t3) u mid x3).2
        u mid).1 =
      .ok [{ id := st.nextId, sender_id := u, text := x1, created_at := t1 },
           { id := st.nextId + 1, sender_id := u, text := x2, created_at := t2 },
           { id := st.nextId + 2, sender_id := u, text := x3, created_at := t3 }]) := by
  constructor
  · refine ⟨_, get_messages_ok st u mid mtch hfind hpart, ?_, ?_⟩
    · exact (List.mergeSort_perm _ _).map _
    · rw [List.pairwise_map]
      refine List.Pairwise.imp ?_
        (List.sorted_mergeSort ascByCreated_trans ascByCreated_total _)
      intro a b h
      simp only [ascByCreated, decide_eq_true_eq] at h
      exact h
  · intro hempty h12 h23
    have h1 : (send_message (setNow st t1) u mid x1).2 =
        { st with
          messages := st.messages ++
            [{ id := st.nextId, match_id := mid, sender_id := u,
               text := x1, created_at := t1 }]
          nextId := st.nextId + 1
          now := t1 } := by
      rw [send_message_ok (setNow st t1) u mid x1 mtch hfind hpart]
      simp [setNow]
    rw [h1]
    have h2 : (send_message (setNow
        ({ st with
           messages := st.messages ++
             [{ id := st.nextId, match_id := mid, sender_id := u,
                text := x1, created_at := t1 }]
           nextId := st.nextId + 1
           now := t1 } : DB) t2) u mid x2).2 =
        { st with
          messages := st.messages ++
            [{ id := st.nextId, match_id := mid, sender_id := u,
               text := x1, created_at := t1 },
             { id := st.nextId + 1, match_id := mid, sender_id := u,
               text := x2, created_at := t2 }]
          nextId := st.nextId + 2
          now := t2 } := by
      rw [send_message_ok (setNow
        ({ st with
           messages := st.messages ++
             [{ id := st.nextId, match_id := mid, sender_id := u,
                text := x1, created_at := t1 }]
           nextId := st.nextId + 1
           now := t1 } : DB) t2) u mid x2 mtch hfind hpart]
      simp [setNow]
    rw [h2]
    have h3 : (send_message (setNow
        ({ st with
           messages := st.messages ++
             [{ id := st.nextId, match_id := mid, sender_id := u,
                text := x1, created_at := t1 },
              { id := st.nextId + 1, match_id := mid, sender_id := u,
                text := x2, created_at := t2 }]
           nextId := st.nextId + 2
           now := t2 } : DB) t3) u mid x3).2 =
        { st with
          messages := st.messages ++
            [{ id := st.nextId, match_id := mid, sender_id := u,
               text := x1, created_at := t1 },
             { id := st.nextId + 1, match_id := mid, sender_id := u,
               text := x2, created_at := t2 },
             { id := st.nextId + 2, match_id := mid, sender_id := u,
               text := x3, created_at := t3 }]
          nextId := st.nextId + 3
          now := t3 } := by
      rw [send_message_ok (setNow
        ({ st with
           messages := st.messages ++
             [{ id := st.nextId, match_id := mid, sender_id := u,
                text := x1, created_at := t1 },
              { id := st.nextId + 1, match_id := mid, sender_id := u,
                text := x2, created_at := t2 }]
           nextId := st.nextId + 2
           now := t2 } : DB) t3) u mid x3 mtch hfind hpart]
      simp [setNow]
    rw [h3]
    rw [get_messages_ok
      ({ st with
         messages := st.messages ++
           [{ id := st.nextId, match_id := mid, sender_id := u,
              text := x1, created_at := t1 },
            { id := st.nextId + 1, match_id := mid, sender_id := u,
              text := x2, created_at := t2 },
            { id := st.nextId + 2, match_id := mid, sender_id := u,
              text := x3, created_at := t3 }]
         nextId := st.nextId + 3
         now := t3 } : DB) u mid mtch hfind hpart]
    have hfilter : (List.filter (fun m => m.match_id == mid)
        (st.messages ++
          [{ id := st.nextId, match_id := mid, sender_id := u,
             text := x1, created_at := t1 },
           { id := st.nextId + 1, match_id := mid, sender_id := u,
             text := x2, created_at := t2 },
           { id := st.nextId + 2, match_id := mid, sender_id := u,
             text := x3, created_at := t3 }] : List MessageRec)) =
        [{ id := st.nextId, match_id := mid, sender_id := u,
           text := x1, created_at := t1 },
         { id := st.nextId + 1, match_id := mid, sender_id := u,
           text := x2, created_at := t2 },
         { id := st.nextId + 2, match_id := mid, sender_id := u,
           text := x3, created_at := t3 }] := by
      rw [List.filter_append, hempty]
      simp
    have hsorted : List.Pairwise (fun a b => ascByCreated a b = true)
        [({ id := st.nextId, match_id := mid, sender_id := u,
            text := x1, created_at := t1 } : MessageRec),
         { id := st.nextId + 1, match_id := mid, sender_id := u,
           text := x2, created_at := t2 },
         { id := st.nextId + 2, match_id := mid, sender_id := u,
           text := x3, created_at := t3 }] := by
      refine List.Pairwise.cons ?_ (List.Pairwise.cons ?_
        (List.pairwise_singleton _ _))
      · intro a ha
        rcases List.mem_cons.mp ha with rfl | ha
        · simpa [ascByCreated] using h12
        · rcases List.mem_singleton.mp ha with rfl
          simpa [ascByCreated] using le_trans h12 h23
      · intro a ha
        rcases List.mem_singleton.mp ha with rfl
        simpa [ascByCreated] using h23
    simp only [hfilter, List.mergeSort_of_sorted hsorted]
    rfl

/-- C7 witness: participant 1 of match 7 appends three messages at times
101, 102, 103 to the empty log and reads them back in order. -/
theorem C7_witness :
    (∃ out, get_messages stMatched 1 7 = (.ok out, stMatched) ∧
      out.Perm ((stMatched.messages.filter fun m => m.match_id == 7).map message_item) ∧
      List.Pairwise (fun x y => x.created_at ≤ y.created_at) out) ∧
    ((stMatched.messages.filter fun m => m.match_id == 7) = [] → 101 ≤ 102 → 102 ≤ 103 →
      (get_messages
        (send_message (setNow
          (send_message (setNow
            (send_message (setNow stMatched 101) 1 7 "one").2 102) 1 7 "two").2 103)
          1 7 "three").2
        1 7).1 =
      .ok [{ id := 10, sender_id := 1, text := "one", created_at := 101 },
           { id := 11, sender_id := 1, text := "two", created_at := 102 },
           { id := 12, sender_id := 1, text := "three", created_at := 103 }]) :=
  C7_list_messages_filtered_sorted stMatched 1 7
    { id := 7, user_a := 1, user_b := 2, created_at := 60 }
    101 102 103 "one" "two" "three" rfl (Or.inl rfl)

/-- The descending comparison is transitive. -/
theorem descByCreated_trans : ∀ a b c : MatchRec,
    descByCreated a b = true → descByCreated b c = true → descByCreated a c = true := by
  intro a b c hab hbc
  simp only [descByCreated, decide_eq_true_eq] at *
  exact le_trans hbc hab

/-- The descending comparison is total. -/
theorem descByCreated_total : ∀ a b : MatchRec,
    (descByCreated a b || descByCreated b a) = true := by
  intro a b
  simp only [descByCreated, Bool.or_eq_true, decide_eq_true_eq]
  exact Nat.le_total b.created_at a.created_at

/-- `listMatches` is the sorted filter of the match store, entry by
entry. -/
theorem listMatches_eq (st : DB) (u : Nat) :
    listMatches st u =
      ((st.matchRecs.filter fun m => m.user_a == u || m.user_b == u).mergeSort
        descByCreated).map (matchEntryOf st u) := rfl

/-- C8: `listMatches(u)` returns one entry per stored Match having `u`
as `user_a` or `user_b` (a permutation of the filtered store mapped to
entries), sorted by `created_at` descending; and a match whose
counterpart does not resolve in the identity store still contributes its
entry, with a `none` counterpart field. -/
theorem C8_list_matches_spec (st : DB) (u : Nat) :
    (listMatches st u).Perm
      ((st.matchRecs.filter fun m => m.user_a == u || m.user_b == u).map
        (matchEntryOf st u)) ∧
    List.Pairwise (fun x y => y.created_at ≤ x.created_at) (listMatches st u) ∧
    (∀ m ∈ st.matchRecs, (m.user_a = u ∨ m.user_b = u) →
      get_user_by_id st (if m.user_a == u then m.user_b else m.user_a) = none →
      ({ id := m.id, other := none, created_at := m.created_at } : MatchEntry)
        ∈ listMatches st u) := by
  refine ⟨?_, ?_, ?_⟩
  · rw [listMatches_eq]
    exact (List.mergeSort_perm _ _).map _
  · rw [listMatches_eq, List.pairwise_map]
    refine List.Pairwise.imp ?_
      (List.sorted_mergeSort descByCreated_trans descByCreated_total _)
    intro a b h
    simp only [descByCreated, decide_eq_true_eq] at h
    exact h
  · intro m hm hu hghost
    have hmem : m ∈ st.matchRecs.filter fun x => x.user_a == u || x.user_b == u := by
      rw [List.mem_filter]
      refine ⟨hm, ?_⟩
      rcases hu with h | h <;> simp [h]
    have hentry : matchEntryOf st u m =
        ({ id := m.id, other := none, created_at := m.created_at } : MatchEntry) := by
      unfold matchEntryOf
      rw [hghost]
      rfl
    have : matchEntryOf st u m ∈ listMatches st u := by
      rw [listMatches_eq]
      exact List.mem_map_of_mem _ ((List.mergeSort_perm _ descByCreated).mem_iff.mpr hmem)
    rwa [hentry] at this

/-- C8 witness: user 1's match with the unresolvable user 99 still
appears in the listing, with a `none` counterpart. -/
theorem C8_witness :
    ({ id := 8, other := none, created_at := 60 } : MatchEntry)
      ∈ listMatches stGhost 1 :=
  (C8_list_matches_spec stGhost 1).2.2
    { id := 8, user_a := 1, user_b := 99, created_at := 60 }
    (by decide) (Or.inl rfl) (by decide)

/-- The `/like` handler never touches the message log, and only ever
appends to the match store. -/
theorem like_frame (st : DB) (u t : Nat) :
    ((like st u t).2).messages = st.messages ∧
    ∃ ms, ((like st u t).2).matchRecs = st.matchRecs ++ ms := by
  unfold like
  split
  · exact ⟨rfl, ⟨[], by simp⟩⟩
  · dsimp only
    split
    · exact ⟨rfl, ⟨[], by simp⟩⟩
    · split
      · exact ⟨rfl, ⟨[], by simp⟩⟩
      · exact ⟨rfl, ⟨_, rfl⟩⟩

/-- The `/messages` POST handler either leaves the state unchanged or
appends one message whose match resolved and whose sender passed the
participation check. -/
theorem send_message_cases (st : DB) (u mid : Nat) (x : String) :
    (send_message st u mid x).2 = st ∨
    (∃ mtch, (st.matchRecs.find? fun m => m.id == mid) = some mtch ∧
      (u = mtch.user_a ∨ u = mtch.user_b) ∧
      (send_message st u mid x).2 =
        { st with
          messages := st.messages ++
            [{ id := st.nextId, match_id := mid, sender_id := u,
               text := x, created_at := st.now }]
          nextId := st.nextId + 1 }) := by
  unfold send_message
  split
  · exact Or.inl rfl
  · rename_i mtch hfind
    split
    · rename_i hcond
      refine Or.inr ⟨mtch, hfind, ?_, rfl⟩
      simpa using hcond
    · exact Or.inl rfl

/-- The `/messages/{match_id}` GET handler never changes the state. -/
theorem get_messages_state (st : DB) (u mid : Nat) :
    (get_messages st u mid).2 = st := by
  unfold get_messages
  split
  · rfl
  · split <;> rfl

/-- C9: every Message record written through `postMessage` has a
`sender_id` that is a participant (`user_a` or `user_b`) of the Match it
references, and this invariant is preserved by every core operation. -/
theorem C9_message_sender_invariant (st : DB) (op : Op) (h : msgOk st) :
    msgOk (applyOp st op) := by
  cases op with
  | opLike u t =>
    obtain ⟨hmsg, ms, hmr⟩ := like_frame st u t
    intro msg hmem
    rw [applyOp, hmsg] at hmem
    obtain ⟨m, hm, hprop⟩ := h msg hmem
    exact ⟨m, by rw [applyOp, hmr]; exact List.mem_append_left _ hm, hprop⟩
  | opListMatches u => exact h
  | opSendMessage u mid x =>
    rcases send_message_cases st u mid x with heq | ⟨mtch, hfind, hpart, heq⟩
    · intro msg hmem
      rw [applyOp, heq] at hmem
      obtain ⟨m, hm, hprop⟩ := h msg hmem
      exact ⟨m, by rw [applyOp, heq]; exact hm, hprop⟩
    · intro msg hmem
      rw [applyOp, heq] at hmem
      simp only [List.mem_append, List.mem_singleton] at hmem
      rcases hmem with hold | rfl
      · obtain ⟨m, hm, hprop⟩ := h msg hold
        exact ⟨m, by rw [applyOp, heq]; exact hm, hprop⟩
      · refine ⟨mtch, ?_, ?_, ?_⟩
        · rw [applyOp, heq]
          exact List.mem_of_find?_eq_some hfind
        · simpa using List.find?_some hfind
        · simpa using hpart
  | opGetMessages u mid =>
    intro msg hmem
    rw [applyOp, get_messages_state] at hmem
    obtain ⟨m, hm, hprop⟩ := h msg hmem
    exact ⟨m, by rw [applyOp, get_messages_state]; exact hm, hprop⟩
  | opUpdateMe u p => exact h
  | opTick t => exact h

/-- C9 witness: the invariant holds after a message post on the empty
store (the post fails with `NotFound`, leaving the store empty). -/
theorem C9_witness : msgOk (applyOp st0 (Op.opSendMessage 1 7 "hi")) :=
  C9_message_sender_invariant st0 (Op.opSendMessage 1 7 "hi")
    (by intro msg hmem; simp [st0] at hmem)

/-- `update_one` relates input and output users pointwise: every output
document is the corresponding input document, either untouched or — when
its id is the targeted one — rewritten by `f`. -/
theorem update_one_rel (userId : Nat) (f : UserRec → UserRec) :
    ∀ users : List UserRec,
      List.Forall₂ (fun x y => y = x ∨ (x.id = userId ∧ y = f x)) users
        (update_one users userId f) := by
  intro users
  induction users with
  | nil => exact List.Forall₂.nil
  | cons a l ih =>
    unfold update_one
    split
    · rename_i hid
      exact List.Forall₂.cons (Or.inr ⟨by simpa using hid, rfl⟩)
        (List.forall₂_same.mpr fun x _ => Or.inl rfl)
    · exact List.Forall₂.cons (Or.inl rfl) ih

/-- What the `$set` document of `update_me` does to one user document:
identity, credentials, creation time, name and verification flag are
untouched, `updated_at` becomes the current time, and each profile field
is overwritten exactly when the payload supplies it. -/
theorem applySet_frame (p : ProfileUpdate) (now : Nat) (y : UserRec) :
    (applySet p now y).id = y.id ∧
    (applySet p now y).email = y.email ∧
    (applySet p now y).password_hash = y.password_hash ∧
    (applySet p now y).full_name = y.full_name ∧
    (applySet p now y).verified = y.verified ∧
    (applySet p now y).created_at = y.created_at ∧
    (applySet p now y).updated_at = now ∧
    (p.photos = none → (applySet p now y).photos = y.photos) ∧
    (∀ v, p.photos = some v → (applySet p now y).photos = v) ∧
    (p.bio = none → (applySet p now y).bio = y.bio) ∧
    (∀ v, p.bio = some v → (applySet p now y).bio = some v) ∧
    (p.gender = none → (applySet p now y).gender = y.gender) ∧
    (∀ v, p.gender = some v → (applySet p now y).gender = some v) ∧
    (p.show_me = none → (applySet p now y).show_me = y.show_me) ∧
    (∀ v, p.show_me = some v → (applySet p now y).show_me = some v) ∧
    (p.age_range = none → (applySet p now y).age_range = y.age_range) ∧
    (∀ v, p.age_range = some v → (applySet p now y).age_range = v) ∧
    (p.distance_km = none → (applySet p now y).distance_km = y.distance_km) ∧
    (∀ v, p.distance_km = some v → (applySet p now y).distance_km = v) ∧
    (p.interests = none → (applySet p now y).interests = y.interests) ∧
    (∀ v, p.interests = some v → (applySet p now y).interests = v) := by
  refine ⟨rfl, rfl, rfl, rfl, rfl, rfl, rfl, ?_, ?_, ?_, ?_, ?_, ?_, ?_, ?_,
    ?_, ?_, ?_, ?_, ?_, ?_⟩ <;>
  · intros
    simp [applySet, *]

/-- C10: `update_me` rewrites only the authenticated user's document,
and there only the supplied profile fields plus `updated_at`; the other
collections, all other user documents, and the user's email, password
hash, identifier, name, creation time and verified flag are unchanged. -/
theorem C10_update_me_frame (st : DB) (u : Nat) (p : ProfileUpdate) :
    ((update_me st u p).2).likes = st.likes ∧
    ((update_me st u p).2).matchRecs = st.matchRecs ∧
    ((update_me st u p).2).messages = st.messages ∧
    List.Forall₂ (fun x y => y = x ∨ (x.id = u ∧ y = applySet p st.now x))
      st.users ((update_me st u p).2).users ∧
    (∀ y : UserRec,
      (applySet p st.now y).id = y.id ∧
      (applySet p st.now y).email = y.email ∧
      (applySet p st.now y).password_hash = y.password_hash ∧
      (applySet p st.now y).full_name = y.full_name ∧
      (applySet p st.now y).verified = y.verified ∧
      (applySet p st.now y).created_at = y.created_at ∧
      (applySet p st.now y).updated_at = st.now ∧
      (p.photos = none → (applySet p st.now y).photos = y.photos) ∧
      (∀ v, p.photos = some v → (applySet p st.now y).photos = v) ∧
      (p.bio = none → (applySet p st.now y).bio = y.bio) ∧
      (∀ v, p.bio = some v → (applySet p st.now y).bio = some v) ∧
      (p.gender = none → (applySet p st.now y).gender = y.gender) ∧
      (∀ v, p.gender = some v → (applySet p st.now y).gender = some v) ∧
      (p.show_me = none → (applySet p st.now y).show_me = y.show_me) ∧
      (∀ v, p.show_me = some v → (applySet p st.now y).show_me = some v) ∧
      (p.age_range = none → (applySet p st.now y).age_range = y.age_range) ∧
      (∀ v, p.age_range = some v → (applySet p st.now y).age_range = v) ∧
      (p.distance_km = none → (applySet p st.now y).distance_km = y.distance_km) ∧
      (∀ v, p.distance_km = some v → (applySet p st.now y).distance_km = v) ∧
      (p.interests = none → (applySet p st.now y).interests = y.interests) ∧
      (∀ v, p.interests = some v → (applySet p st.now y).interests = v)) :=
  ⟨rfl, rfl, rfl, update_one_rel u (applySet p st.now) st.users,
   fun y => applySet_frame p st.now y⟩

/-- C10 witness: updating only the bio of user 1 relates the user store
to its updated version pointwise, and leaves user 1's email unchanged. -/
theorem C10_witness :
    List.Forall₂ (fun x y => y = x ∨
        (x.id = 1 ∧ y = applySet { bio := some "hey" } st0.now x))
      st0.users ((update_me st0 1 { bio := some "hey" }).2).users ∧
    (applySet { bio := some "hey" } st0.now userA).email = userA.email :=
  ⟨(C10_update_me_frame st0 1 { bio := some "hey" }).2.2.2.1,
   ((C10_update_me_frame st0 1 { bio := some "hey" }).2.2.2.2 userA).2.1⟩

/-- Corroboration of the interleaved model: when the two `/like` requests
run one after the other (no interleaving), the pair of users 1 and 2 ends
with exactly one match record, as the sequential handler code guarantees. -/
theorem runSched_sequential_single_match :
    (matchesForPair
      (runSched st0 { uid := 1, target := 2 } { uid := 2, target := 1 }
        [true, true, true, true, true, false, false, false, false, false]).1
      1 2).length = 1 := rfl

end Dating
